import Mathlib

/-!
Verification development for the snowweb repository (git.sr.ht/~aasg/snowweb).

The definitions below are a shallow embedding of the Go sources:
  * file_server.go / the NixStorePathServer source file: path normalization,
    openFile, ServeHTTP, HandleError;
  * snowweb_server.go: SnowWebServer, Realise, serveStatus, serveReload,
    authorizeRequest;
  * cmd/snowweb/main.go: loadTLSKeyPair / getCertificate;
  * internal/sockaddr/parse.go: SplitNetworkAddress, FDFile, ListenerFromString.

Go strings are modeled as Lean String; Go maps/filesystems as association
lists; fallible operations return Except.  External collaborators (the nix
build tool, the OS filesystem, TLS key loading) are parameters supplied as
explicit environment records, so that every definition is executable.
-/

namespace Snowweb

/-- An HTTP response as observed by the client: status code, response
headers in the order the handlers add them, and the body. -/
structure Response where
  status : Nat
  headers : List (String × String)
  body : String
deriving DecidableEq, Repr

/-- Error codes passed by SnowWeb to error handlers (the iota constants
ErrorUnsupportedMethod, ErrorInvalidPath, ErrorNotFound and the I/O error
code in file_server.go). -/
inductive ErrCode
  | unsupportedMethod
  | invalidPath
  | notFound
  | ioFailure
deriving DecidableEq, Repr

/-- HandleError (file_server.go): writes a response with the appropriate
HTTP status code and no body. -/
def HandleError : ErrCode → Response
  | .unsupportedMethod =>
      { status := 405
        headers := [("Allow", "GET, HEAD"), ("Content-Length", "0")]
        body := "" }
  | .invalidPath =>
      { status := 400, headers := [("Content-Length", "0")], body := "" }
  | .notFound =>
      { status := 404, headers := [("Content-Length", "0")], body := "" }
  | .ioFailure =>
      { status := 500, headers := [("Content-Length", "0")], body := "" }

/-- A node of the served file tree: a regular file with its contents, or a
directory. -/
inductive Node
  | file (contents : String)
  | dir
deriving DecidableEq, Repr

/-- The body bytes http.ServeContent would send for an opened node (a
directory opened as a file reads as empty here; the handlers only reach
that case through the precompressed-sibling branch). -/
def Node.contents : Node → String
  | .file c => c
  | .dir => ""

/-- Outcome class of opening a file, matching the dispatch in ServeHTTP:
fs.ErrNotExist versus any other I/O error. -/
inductive FSErr
  | notExist
  | ioErr
deriving DecidableEq, Repr

/-- The file tree reached through os.DirFS(storePath): an association list
from slash-separated relative paths to nodes, plus the set of paths whose
open (or stat) fails with an error other than fs.ErrNotExist. -/
structure FS where
  entries : List (String × Node)
  ioFail : List String
deriving DecidableEq, Repr

/-- h.resolvedRoot.Open(name) followed by f.Stat(): a missing path yields
fs.ErrNotExist; a path in ioFail yields some other I/O error; otherwise the
node is returned. -/
def FS.openNode (fsys : FS) (name : String) : Except FSErr Node :=
  if fsys.ioFail.contains name then .error .ioErr
  else
    match fsys.entries.lookup name with
    | some n => .ok n
    | none => .error .notExist

/-- openFile (NixStorePathServer): open the file; on error return it; if
the node is a directory and redirectDirectory is set, recurse on
filename ++ "/index.html"; otherwise return the node together with the name
actually opened.  The recursion in the source terminates because the
filesystem is finite and each step lengthens the path; here it is made
structural with a fuel parameter, and none marks fuel exhaustion (which no
finite tree can produce for adequate fuel). -/
def openFile (fsys : FS) (fuel : Nat) (filename : String)
    (redirectDirectory : Bool) : Option (Except FSErr (Node × String)) :=
  match fuel with
  | 0 => none
  | fuel + 1 =>
    match fsys.openNode filename with
    | .error e => some (.error e)
    | .ok n =>
      match n, redirectDirectory with
      | .dir, true => openFile fsys fuel (filename ++ "/index.html") true
      | _, _ => some (.ok (n, filename))

/-- strings.TrimLeft(path, "/"): drop every leading slash. -/
def trimLeftSlashes (s : String) : String :=
  String.mk (s.data.dropWhile (· == '/'))

/-- strings.HasSuffix(path, "/"): the last character is a slash. -/
def hasSuffixSlash (s : String) : Bool :=
  s.data.getLast? == some '/'

/-- The path preprocessing at the top of ServeHTTP: trim leading slashes;
an empty result becomes "index.html"; a result ending in "/" gets
"/index.html" appended (this is the literal source text:
requestPath += "/index.html"). -/
def normalizeRequestPath (urlPath : String) : String :=
  let requestPath := trimLeftSlashes urlPath
  if requestPath = "" then "index.html"
  else if hasSuffixSlash requestPath then requestPath ++ "/index.html"
  else requestPath

/-- Split a character list on every slash, keeping empty elements, the
way fs.ValidPath walks its input (also the behavior of
strings.Split(s, "/")). -/
def splitOnSlash : List Char → List (List Char)
  | [] => [[]]
  | c :: cs =>
    if c = '/' then [] :: splitOnSlash cs
    else
      match splitOnSlash cs with
      | r :: rs => (c :: r) :: rs
      | [] => [[c]]

/-- One path element is acceptable to fs.ValidPath when it is neither
empty nor "." nor "..". -/
def validElem (e : List Char) : Bool :=
  ¬ (e = [] ∨ e = ['.'] ∨ e = ['.', '.'])

/-- fs.ValidPath from Go's io/fs package: "." names the root; any other
path must consist of slash-separated elements, none of which is empty,
"." or "..".  (Lean strings are always valid UTF-8, so the utf8.ValidString
guard of the original is vacuous here.) -/
def validPath (s : String) : Bool :=
  if s = "." then true
  else (splitOnSlash s.data).all validElem

/-- The request fields the handlers inspect.  brotli is the result of
brotliSupported (the Accept-Encoding negotiation through nego);
acceptJson is the result of nego.NegotiateContentType choosing
"application/json"; tls is r.TLS (none when the request did not arrive
over TLS), carrying the verified client certificate chains, with each
certificate abbreviated to its serial number. -/
structure ConnectionState where
  verifiedChains : List (List Nat)
deriving DecidableEq, Repr

structure Request where
  method : String
  urlPath : String
  brotli : Bool
  acceptJson : Bool
  tls : Option ConnectionState
deriving DecidableEq, Repr

/-- The NixStorePathServer state: the tree-wide ETag fixed at
construction, the file system rooted at the store path, and the store
path itself.  (The Error field of the source is a handler function; the
default — and the wrapper Realise installs — renders responses through
HandleError, which is used directly here.) -/
structure NixStorePathServer where
  etag : String
  resolvedRoot : FS
  storePath : String
deriving DecidableEq, Repr

/-- ServeHTTP (NixStorePathServer): reject non-GET/HEAD methods; rewrite
the path; reject invalid paths; open the file with directory redirect;
dispatch fs.ErrNotExist to the 404 handler and other errors to the 500
handler; optionally swap in a precompressed sibling when the client
negotiates Brotli; finally serve with Cache-Control, Etag and Vary
headers (conditional/range handling inside http.ServeContent is modeled
as a plain 200 with the full contents). -/
def NixStorePathServer.serveHTTP (h : NixStorePathServer) (fuel : Nat)
    (r : Request) : Option Response :=
  if r.method ≠ "GET" ∧ r.method ≠ "HEAD" then
    some (HandleError .unsupportedMethod)
  else
    let requestPath := normalizeRequestPath r.urlPath
    if ¬ validPath requestPath then some (HandleError .invalidPath)
    else
      match openFile h.resolvedRoot fuel requestPath true with
      | none => none
      | some (.error .notExist) => some (HandleError .notFound)
      | some (.error .ioErr) => some (HandleError .ioFailure)
      | some (.ok (n, actualPath)) =>
        if r.brotli then
          match openFile h.resolvedRoot fuel (actualPath ++ ".br") false with
          | none => none
          | some (.ok (nbr, _)) =>
            some { status := 200
                   headers := [("Vary", "Accept-Encoding"),
                               ("Content-Encoding", "br"),
                               ("Cache-Control", "public, max-age=0, proxy-revalidate"),
                               ("Etag", h.etag)]
                   body := nbr.contents }
          | some (.error _) =>
            some { status := 200
                   headers := [("Vary", "Accept-Encoding"),
                               ("Cache-Control", "public, max-age=0, proxy-revalidate"),
                               ("Etag", h.etag)]
                   body := n.contents }
        else
          some { status := 200
                 headers := [("Vary", "Accept-Encoding"),
                             ("Cache-Control", "public, max-age=0, proxy-revalidate"),
                             ("Etag", h.etag)]
                 body := n.contents }

/-- Fetch the first response header with the given name (http.Header
lookup). -/
def getHeader (resp : Response) (name : String) : Option String :=
  resp.headers.lookup name

/-! ## SnowWebServer (snowweb_server.go) -/

/-- The external collaborators of Realise, supplied as an environment:
nix.Build turns an installable into a store path (or fails), nix.NarHash
digests a store path (or fails), os.DirFS gives the file tree rooted at a
store path, and readMIMEHeaders yields the parsed site-specific headers
(its internal file-does-not-exist case already collapsed into an empty
header list, as the source does). -/
structure BuildEnv where
  build : String → Except String String
  narHash : String → Except String String
  dirFS : String → FS
  readHeaders : String → Except String (List (String × String))

/-- NewNixStorePathServer: digest the store path with nix.NarHash, fail if
that fails, otherwise construct the server with the quoted hash as the
tree-wide ETag and the file system rooted at the store path. -/
def NewNixStorePathServer (env : BuildEnv) (storePath : String) :
    Except String NixStorePathServer :=
  match env.narHash storePath with
  | .error e => .error e
  | .ok narHash =>
    .ok { etag := "\"" ++ narHash ++ "\""
          resolvedRoot := env.dirFS storePath
          storePath := storePath }

/-- The mutable fields of a SnowWebServer: the inner file server (nil
until the first successful Realise) and the site-specific extra headers,
plus the immutable installable. -/
structure SnowWebServer where
  installable : String
  fileServer : Option NixStorePathServer
  extraHeaders : List (String × String)
deriving DecidableEq, Repr

/-- NewSnowWebServer: no file server yet, no extra headers; Realise must
run before requests are served. -/
def NewSnowWebServer (installable : String) : SnowWebServer :=
  { installable := installable, fileServer := none, extraHeaders := [] }

/-- Realise (snowweb_server.go, sequential semantics): build the
installable; construct a NixStorePathServer for the resulting store path;
read the site-specific headers from storePath/.snowweb/headers
(filepath.Join modeled as concatenation); each failure returns a wrapped
error and leaves the receiver untouched; on success switch the server to
the new file server and headers.  The final switch is written here as one
record update; its two Go assignments (h.fileServer, then h.extraHeaders)
are modeled individually by the interleaving semantics further below. -/
def Realise (env : BuildEnv) (h : SnowWebServer) :
    Except String Unit × SnowWebServer :=
  match env.build h.installable with
  | .error e =>
    (.error ("snowweb: building " ++ h.installable ++ ": " ++ e), h)
  | .ok storePath =>
    match NewNixStorePathServer env storePath with
    | .error e =>
      (.error ("snowweb: creating NixStorePathServer for " ++ storePath
               ++ ": " ++ e), h)
    | .ok fileServer =>
      let headersPath := storePath ++ "/.snowweb/headers"
      match env.readHeaders headersPath with
      | .error e =>
        (.error ("snowweb: reading site-specific headers from "
                 ++ headersPath ++ ": " ++ e), h)
      | .ok headers =>
        (.ok (), { h with fileServer := some fileServer
                          extraHeaders := headers })

/-- authorizeRequest (snowweb_server.go): the Go switch evaluates its
cases in order — r.TLS == nil, len(r.TLS.VerifiedChains) == 0,
len(r.TLS.VerifiedChains[0]) == 0 all fall through to false — and only
when none of them matches does the default branch read
r.TLS.VerifiedChains[0][0] and return true.  The nested match mirrors
that guard structure exactly. -/
def authorizeRequest (rTLS : Option ConnectionState) : Bool :=
  match rTLS with
  | none => false
  | some t =>
    match t.verifiedChains with
    | [] => false
    | [] :: _ => false
    | (_crt :: _) :: _ => true

/-- h.fileServer.StorePath() as used by the status and reload bodies.
main.go performs the initial Realise before serving, so the none case is
never reached in the running program. -/
def storePathOf (h : SnowWebServer) : String :=
  match h.fileServer with
  | some fileServer => fileServer.storePath
  | none => ""

/-- The JSON body written by the status endpoint (json.Marshal of
{ok, path}; string escaping is not modeled). -/
def jsonStatusBody (path : String) : String :=
  "\x7b\"ok\":true,\"path\":\"" ++ path ++ "\"\x7d"

/-- The JSON body written by the reload endpoint. -/
def jsonReloadBody (ok : Bool) (path errMsg : String) : String :=
  if ok then "\x7b\"ok\":true,\"path\":\"" ++ path ++ "\"\x7d"
  else "\x7b\"ok\":false,\"error\":\"" ++ errMsg ++ "\"\x7d"

/-- serveStatus: add Vary: Accept; a method other than GET or HEAD gets
406 with an Allow header and no body; otherwise answer 200 with the
negotiated plain-text or JSON body naming the served store path. -/
def serveStatus (h : SnowWebServer) (r : Request) : Response :=
  if r.method ≠ "GET" ∧ r.method ≠ "HEAD" then
    { status := 406
      headers := [("Vary", "Accept"), ("Allow", "GET, HEAD"),
                  ("Content-Length", "0")]
      body := "" }
  else if r.acceptJson then
    { status := 200
      headers := [("Vary", "Accept"), ("Content-Type", "application/json")]
      body := jsonStatusBody (storePathOf h) }
  else
    { status := 200
      headers := [("Vary", "Accept")]
      body := "ok\nserving " ++ storePathOf h ++ "\n" }

/-- serveReload: add Vary: Accept; a method other than POST gets 406 with
Allow: POST and no body; an unauthorized request (h.AuthorizeRequest,
defaulting to authorizeRequest, which main.go never overrides) gets 403
with no body and no rebuild; otherwise Realise runs synchronously and the
response reports its outcome with status 200 either way.  The result also
records the possibly-updated server state and whether Realise was
invoked. -/
def serveReload (env : BuildEnv) (h : SnowWebServer) (r : Request) :
    Response × SnowWebServer × Bool :=
  if r.method ≠ "POST" then
    ({ status := 406
       headers := [("Vary", "Accept"), ("Allow", "POST"),
                   ("Content-Length", "0")]
       body := "" }, h, false)
  else if ¬ authorizeRequest r.tls then
    ({ status := 403
       headers := [("Vary", "Accept"), ("Content-Length", "0")]
       body := "" }, h, false)
  else
    match Realise env h with
    | (.error e, h') =>
      if r.acceptJson then
        ({ status := 200
           headers := [("Vary", "Accept"),
                       ("Content-Type", "application/json")]
           body := jsonReloadBody false "" e }, h', true)
      else
        ({ status := 200
           headers := [("Vary", "Accept")]
           body := "error\n" ++ e ++ "\n" }, h', true)
    | (.ok _, h') =>
      if r.acceptJson then
        ({ status := 200
           headers := [("Vary", "Accept"),
                       ("Content-Type", "application/json")]
           body := jsonReloadBody true (storePathOf h') "" }, h', true)
      else
        ({ status := 200
           headers := [("Vary", "Accept")]
           body := "ok\nserving " ++ storePathOf h' ++ "\n" }, h', true)

/-! ## TLS material (cmd/snowweb/main.go) -/

/-- A certificate/key pair as produced by tls.LoadX509KeyPair, which only
succeeds when certificate and key match; cert and key are abbreviated to
tags. -/
structure Certificate where
  cert : Nat
  key : Nat
deriving DecidableEq, Repr

/-- loadTLSKeyPair: run tls.LoadX509KeyPair (its outcome supplied as a
parameter); on error return it before touching the shared state; on
success store the whole pair with a single pointer assignment under the
write lock.  The sync.RWMutex in the source makes this assignment and
each read atomic, so the function is the atomic step of the trace
semantics below. -/
def loadTLSKeyPair (loadOutcome : Except String Certificate)
    (tlsKeyPair : Option Certificate) :
    Except String Unit × Option Certificate :=
  match loadOutcome with
  | .error err => (.error err, tlsKeyPair)
  | .ok keypair => (.ok (), some keypair)

/-- getCertificate: read the stored pair under the read lock. -/
def getCertificate (tlsKeyPair : Option Certificate) : Option Certificate :=
  tlsKeyPair

/-- Run a sequence of reload attempts (each with its LoadX509KeyPair
outcome) against the shared cell. -/
def runLoads (tlsKeyPair : Option Certificate) :
    List (Except String Certificate) → Option Certificate
  | [] => tlsKeyPair
  | o :: rest => runLoads (loadTLSKeyPair o tlsKeyPair).2 rest

/-- The pair stored by the last successful reload of a sequence (or the
initial contents when none succeeded). -/
def lastSuccessfulLoad (init : Option Certificate) :
    List (Except String Certificate) → Option Certificate
  | [] => init
  | .ok keypair :: rest => lastSuccessfulLoad (some keypair) rest
  | .error _ :: rest => lastSuccessfulLoad init rest

/-! ## Interleaving semantics of the Realise publish step

Realise ends with two ordinary Go assignments with no lock anywhere in
SnowWebServer (snowweb_server.go lines 112-113):

    h.fileServer = fileServer
    h.extraHeaders = headers

main.go invokes Realise from the signal loop while serveReload invokes it
from an HTTP handler goroutine, so two Realise calls can run concurrently
and their two publish writes interleave.  Everything before those lines
acts on locals only, so a rebuild thread is modeled by its computed
snapshot plus its two pending shared-state writes. -/

inductive WriteStep
  | writeFileServer
  | writeExtraHeaders
deriving DecidableEq, Repr

/-- One rebuild thread after its build finished: the file server and
headers it computed, and the publish writes it has not yet issued. -/
structure RebuildThread where
  fileServer : NixStorePathServer
  headers : List (String × String)
  pending : List WriteStep
deriving DecidableEq, Repr

/-- A thread that has just finished building and has both publish writes
still pending, in the source's order. -/
def freshRebuild (fileServer : NixStorePathServer)
    (headers : List (String × String)) : RebuildThread :=
  { fileServer := fileServer, headers := headers
    pending := [.writeFileServer, .writeExtraHeaders] }

/-- Execute the scheduled thread's next pending write against the shared
SnowWebServer state. -/
def execStep (st : SnowWebServer) (t : RebuildThread) :
    SnowWebServer × RebuildThread :=
  match t.pending with
  | [] => (st, t)
  | .writeFileServer :: rest =>
    ({ st with fileServer := some t.fileServer }, { t with pending := rest })
  | .writeExtraHeaders :: rest =>
    ({ st with extraHeaders := t.headers }, { t with pending := rest })

/-- Run two concurrent rebuild threads under a schedule (true selects
thread a, false selects thread b). -/
def runSchedule (st : SnowWebServer) (a b : RebuildThread) :
    List Bool → SnowWebServer × RebuildThread × RebuildThread
  | [] => (st, a, b)
  | true :: s =>
    let (st', a') := execStep st a
    runSchedule st' a' b s
  | false :: s =>
    let (st', b') := execStep st b
    runSchedule st' a b' s

/-- The state a rebuild thread intends to publish: its own file server
paired with its own headers. -/
def publishedBy (st : SnowWebServer) (t : RebuildThread) : SnowWebServer :=
  { st with fileServer := some t.fileServer, extraHeaders := t.headers }

/-! ## Listener resolver (internal/sockaddr/parse.go) -/

/-- The error classes the resolver can return: sockaddr.ParseError,
net.UnknownNetworkError, net.AddrError, and the distinct
ErrNoSystemdSockets value. -/
inductive NetErr
  | parseFailure (typ : String) (text : String)
  | unknownNetwork (network : String)
  | addrFailure (msg : String) (addr : String)
  | noSystemdSockets
deriving DecidableEq, Repr

/-- Split a character list at its first colon (the behavior of
strings.SplitN(s, ":", 2)); none when the list has no colon. -/
def splitFirstColon : List Char → Option (List Char × List Char)
  | [] => none
  | c :: cs =>
    if c = ':' then some ([], cs)
    else
      match splitFirstColon cs with
      | none => none
      | some (a, b) => some (c :: a, b)

/-- SplitNetworkAddress: split network:address at the first colon; a
string without the separator is a ParseError of type "socket address". -/
def SplitNetworkAddress (s : String) : Except NetErr (String × String) :=
  match splitFirstColon s.data with
  | none => .error (.parseFailure "socket address" s)
  | some (network, address) => .ok (String.mk network, String.mk address)

/-- A file descriptor handle as returned by FDFile: a numbered
/dev/fd wrapper from os.NewFile, or one of the descriptor files passed by
systemd (identified by its name). -/
inductive FDHandle
  | numbered (fd : Nat)
  | sdFile (name : String)
deriving DecidableEq, Repr

/-- strconv.ParseUint(address, 10, 0): a non-empty all-digit string is
read as a base-10 number, anything else is an error (the 64-bit overflow
check is not modeled). -/
def parseUint10 (s : String) : Option Nat :=
  if s.data ≠ [] ∧ s.data.all (fun c => c.isDigit) then
    some (s.data.foldl (fun n c => n * 10 + (c.toNat - 48)) 0)
  else none

/-- FDFile (sockaddr/parse.go): "fd" parses the descriptor number with
strconv.ParseUint; "systemd" first requires that systemd passed any
descriptors at all (ErrNoSystemdSockets otherwise), then takes the first
file for an empty address or looks the name up among the passed files,
returning a net.AddrError when it is absent; any other network is a
net.UnknownNetworkError.  systemdSocketFiles carries the names of the
descriptor files systemd passed to the process. -/
def FDFile (systemdSocketFiles : List String) (network address : String) :
    Except NetErr FDHandle :=
  if network = "fd" then
    match parseUint10 address with
    | none => .error (.parseFailure "file descriptor" address)
    | some fd => .ok (.numbered fd)
  else if network = "systemd" then
    match systemdSocketFiles with
    | [] => .error .noSystemdSockets
    | first :: _ =>
      if address = "" then .ok (.sdFile first)
      else if systemdSocketFiles.contains address then .ok (.sdFile address)
      else .error (.addrFailure "systemd socket not found" address)
  else .error (.unknownNetwork network)

/-- The socket a successful resolution produces: a listener over an
inherited descriptor (net.FileListener) or a freshly bound one
(net.Listen).  The OS-level binding itself is outside the resolver and
modeled as succeeding. -/
inductive Listener
  | fromFile (f : FDHandle)
  | bound (network address : String)
deriving DecidableEq, Repr

/-- ListenerFromString: split the specification; route "fd" and "systemd"
through FDFile and net.FileListener, everything else through
net.Listen. -/
def ListenerFromString (systemdSocketFiles : List String) (s : String) :
    Except NetErr Listener :=
  match SplitNetworkAddress s with
  | .error e => .error e
  | .ok (network, address) =>
    if network = "fd" ∨ network = "systemd" then
      match FDFile systemdSocketFiles network address with
      | .error e => .error e
      | .ok f => .ok (.fromFile f)
    else .ok (.bound network address)

/-! ## Concrete sample data (used by the witnesses and counterexample runs) -/

/-- A small content root: an index page, a subdirectory with its own
index page, and one path whose open fails with a non-notExist error. -/
def sampleFS : FS :=
  { entries := [("index.html", .file "hello"), ("foo", .dir),
                ("foo/index.html", .file "fooidx")]
    ioFail := ["bad.html"] }

/-- A content server over sampleFS with a fixed digest-derived ETag. -/
def sampleServer : NixStorePathServer :=
  { etag := "\"h123\"", resolvedRoot := sampleFS
    storePath := "/nix/store/aaa-site" }

/-- An environment whose build, digest and header reads all succeed. -/
def sampleEnv : BuildEnv :=
  { build := fun _ => .ok "/nix/store/aaa-site"
    narHash := fun _ => .ok "h123"
    dirFS := fun _ => sampleFS
    readHeaders := fun _ => .ok [("X-Site", "demo")] }

/-- An environment whose nix build fails. -/
def failingEnv : BuildEnv :=
  { build := fun _ => .error "nix build failed"
    narHash := fun _ => .error "no such path"
    dirFS := fun _ => sampleFS
    readHeaders := fun _ => .error "unreadable" }

/-- A plain GET request for a path, over a non-TLS connection. -/
def getReq (p : String) : Request :=
  { method := "GET", urlPath := p, brotli := false, acceptJson := false
    tls := none }

/-- A server state after one successful build. -/
def sampleState : SnowWebServer :=
  { installable := "flake#site", fileServer := some sampleServer
    extraHeaders := [("X-Old", "1")] }

/-- The file server computed by rebuild A. -/
def buildAServer : NixStorePathServer :=
  { etag := "\"hashA\"", resolvedRoot := sampleFS
    storePath := "/nix/store/aaa" }

/-- The file server computed by rebuild B. -/
def buildBServer : NixStorePathServer :=
  { etag := "\"hashB\"", resolvedRoot := sampleFS
    storePath := "/nix/store/bbb" }

/-- The header overrides read from build A's content root. -/
def headersA : List (String × String) := [("X-Build", "A")]

/-- The header overrides read from build B's content root. -/
def headersB : List (String × String) := [("X-Build", "B")]

/-- Rebuild A, build finished, both publish writes pending. -/
def threadA : RebuildThread := freshRebuild buildAServer headersA

/-- Rebuild B, build finished, both publish writes pending. -/
def threadB : RebuildThread := freshRebuild buildBServer headersB

/-- The run where A writes h.fileServer, then B writes h.fileServer and
h.extraHeaders, then A writes h.extraHeaders — an interleaving the
lock-free source permits. -/
def tornRun : SnowWebServer × RebuildThread × RebuildThread :=
  runSchedule sampleState threadA threadB [true, false, false, true]

/-! ## Theorems -/

/-- C9: the default authorization check is total — it is a Lean function
on every request TLS state, including none, an empty chain list and an
empty first chain — and it returns true exactly when the TLS state is
present and its first verified chain is non-empty, which is precisely
when the default branch reading r.TLS.VerifiedChains[0][0] is reached. -/
theorem authorizeRequest_true_iff (rTLS : Option ConnectionState) :
    authorizeRequest rTLS = true ↔
      ∃ t crt certs rest, rTLS = some t ∧
        t.verifiedChains = (crt :: certs) :: rest := by
  cases rTLS with
  | none => simp [authorizeRequest]
  | some t =>
    cases ht : t.verifiedChains with
    | nil => simp [authorizeRequest, ht]
    | cons chain rest =>
      cases chain with
      | nil => simp [authorizeRequest, ht]
      | cons crt certs => simp [authorizeRequest, ht]

/-- Witness for C9: a request with one verified chain holding one
certificate is authorized. -/
theorem authorizeRequest_true_iff_witness :
    authorizeRequest (some { verifiedChains := [[7]] }) = true :=
  (authorizeRequest_true_iff (some { verifiedChains := [[7]] })).mpr
    ⟨{ verifiedChains := [[7]] }, 7, [], [], rfl, rfl⟩

/-- C3: a POST to the reload endpoint that did not arrive over TLS, or
whose verified chain list is empty, or whose first chain is empty, is
answered with status 403 and an empty body; Realise is not invoked and
the server state (file server and extra headers) is unchanged. -/
theorem serveReload_unauthorized (env : BuildEnv) (h : SnowWebServer)
    (r : Request) (hm : r.method = "POST")
    (ha : r.tls = none
        ∨ (∃ t, r.tls = some t ∧ t.verifiedChains = [])
        ∨ (∃ t rest, r.tls = some t ∧ t.verifiedChains = [] :: rest)) :
    serveReload env h r =
      ({ status := 403
         headers := [("Vary", "Accept"), ("Content-Length", "0")]
         body := "" }, h, false) := by
  have hauth : authorizeRequest r.tls = false := by
    rcases ha with h1 | ⟨t, h1, h2⟩ | ⟨t, rest, h1, h2⟩ <;>
      simp [authorizeRequest, h1] <;> simp [h2]
  unfold serveReload
  rw [if_neg (by simp [hm]), if_pos (by simp [hauth])]

/-- Witness for C3: an unauthenticated (plain, non-TLS) POST against the
sample server state is rejected with 403 and changes nothing. -/
theorem serveReload_unauthorized_witness :
    serveReload sampleEnv sampleState
      { method := "POST", urlPath := "/.snowweb/reload", brotli := false
        acceptJson := false, tls := none } =
      ({ status := 403
         headers := [("Vary", "Accept"), ("Content-Length", "0")]
         body := "" }, sampleState, false) :=
  serveReload_unauthorized sampleEnv sampleState
    { method := "POST", urlPath := "/.snowweb/reload", brotli := false
      acceptJson := false, tls := none } rfl (Or.inl rfl)

/-- C4: whenever Realise returns an error — the build fails, the file
server construction fails, or the header read fails — the returned state
is exactly the previous one: the active file server and extra headers
are untouched and the wrapped error goes back to the caller. -/
theorem realise_error_state_unchanged (env : BuildEnv) (h : SnowWebServer)
    (e : String) (h' : SnowWebServer)
    (hr : Realise env h = (.error e, h')) :
    Realise env h = (.error e, h) := by
  cases hb : env.build h.installable with
  | error eb =>
    simp [Realise, hb] at hr ⊢
    exact hr.1
  | ok sp =>
    cases hn : NewNixStorePathServer env sp with
    | error en =>
      simp [Realise, hb, hn] at hr ⊢
      exact hr.1
    | ok fsrv =>
      cases hh : env.readHeaders (sp ++ "/.snowweb/headers") with
      | error eh =>
        simp [Realise, hb, hn, hh] at hr ⊢
        exact hr.1
      | ok hd =>
        simp [Realise, hb, hn, hh] at hr

/-- Witness for C4: against the failing build environment, Realise
reports the wrapped build error and hands back the unchanged state. -/
theorem realise_error_state_unchanged_witness :
    Realise failingEnv sampleState =
      (.error "snowweb: building flake#site: nix build failed",
       sampleState) :=
  realise_error_state_unchanged failingEnv sampleState
    "snowweb: building flake#site: nix build failed"
    sampleState rfl

/-- C5: a failed TLS reload leaves the stored material exactly as it
was (the error returns before the locked assignment), and after any
sequence of reload attempts the handshake accessor observes precisely
the complete pair stored by the last successful reload (or the initial
contents when none succeeded) — never a torn or mixed pair, since the
pair is stored as one value by a single atomic assignment. -/
theorem tls_reload_safe :
    (∀ o st, (∃ e, (loadTLSKeyPair o st).1 = .error e) →
       (loadTLSKeyPair o st).2 = st)
  ∧ (∀ init ops,
       getCertificate (runLoads init ops) = lastSuccessfulLoad init ops) := by
  constructor
  · intro o st ⟨e, he⟩
    cases o with
    | error err => rfl
    | ok keypair => exact absurd he (by simp [loadTLSKeyPair])
  · intro init ops
    induction ops generalizing init with
    | nil => rfl
    | cons o rest ih =>
      cases o with
      | error err => exact ih init
      | ok keypair => exact ih (some keypair)

/-- Witness for C5: a failed reload keeps the pair (1, 2) intact, and a
mixed history of successes and failures leaves the accessor seeing the
pair of the last success. -/
theorem tls_reload_safe_witness :
    (loadTLSKeyPair (.error "bad pem") (some ⟨1, 2⟩)).2 = some ⟨1, 2⟩
  ∧ getCertificate (runLoads none
      [.ok ⟨1, 2⟩, .error "bad pem", .ok ⟨3, 4⟩, .error "unreadable"]) =
      lastSuccessfulLoad none
        [.ok ⟨1, 2⟩, .error "bad pem", .ok ⟨3, 4⟩, .error "unreadable"] :=
  ⟨tls_reload_safe.1 (.error "bad pem") (some ⟨1, 2⟩) ⟨"bad pem", rfl⟩,
   tls_reload_safe.2 none
     [.ok ⟨1, 2⟩, .error "bad pem", .ok ⟨3, 4⟩, .error "unreadable"]⟩

/-- C10: a status request with a method other than GET or HEAD, and a
reload request with a method other than POST, are both answered 406
(Not Acceptable) with an Allow header naming the permitted methods and
an empty body — distinct from the 405 HandleError uses for unsupported
methods on ordinary file paths. -/
theorem api_endpoints_406 (env : BuildEnv) (h : SnowWebServer)
    (r r' : Request) (h1 : r.method ≠ "GET") (h2 : r.method ≠ "HEAD")
    (h3 : r'.method ≠ "POST") :
    serveStatus h r =
      { status := 406
        headers := [("Vary", "Accept"), ("Allow", "GET, HEAD"),
                    ("Content-Length", "0")]
        body := "" }
  ∧ (serveReload env h r').1 =
      { status := 406
        headers := [("Vary", "Accept"), ("Allow", "POST"),
                    ("Content-Length", "0")]
        body := "" }
  ∧ (HandleError .unsupportedMethod).status = 405 := by
  refine ⟨?_, ?_, rfl⟩
  · unfold serveStatus
    rw [if_pos ⟨h1, h2⟩]
  · unfold serveReload
    rw [if_pos h3]

/-- Witness for C10: a PUT to the status endpoint and a GET to the
reload endpoint both get the 406 responses. -/
theorem api_endpoints_406_witness :
    serveStatus sampleState
      { method := "PUT", urlPath := "/.snowweb/status", brotli := false
        acceptJson := false, tls := none } =
      { status := 406
        headers := [("Vary", "Accept"), ("Allow", "GET, HEAD"),
                    ("Content-Length", "0")]
        body := "" }
  ∧ (serveReload sampleEnv sampleState
      { method := "GET", urlPath := "/.snowweb/reload", brotli := false
        acceptJson := false, tls := none }).1 =
      { status := 406
        headers := [("Vary", "Accept"), ("Allow", "POST"),
                    ("Content-Length", "0")]
        body := "" }
  ∧ (HandleError .unsupportedMethod).status = 405 :=
  api_endpoints_406 sampleEnv sampleState
    { method := "PUT", urlPath := "/.snowweb/status", brotli := false
      acceptJson := false, tls := none }
    { method := "GET", urlPath := "/.snowweb/reload", brotli := false
      acceptJson := false, tls := none }
    (by decide) (by decide) (by decide)

/-- C1: the publish step of Realise is two plain field assignments with
no mutual exclusion, so two concurrent rebuilds can interleave them.
Under the schedule A:writeFileServer, B:writeFileServer,
B:writeExtraHeaders, A:writeExtraHeaders both rebuilds run to
completion, yet the final state pairs build B's file server with build
A's extra headers: it is the snapshot of neither rebuild, the headers do
not match the published content root, and in particular it differs from
the snapshot of the last write (A's), refuting serialized, atomic
publication. -/
theorem realise_interleaving_torn :
    (tornRun.2.1.pending = [] ∧ tornRun.2.2.pending = [])
  ∧ tornRun.1.fileServer = some buildBServer
  ∧ tornRun.1.extraHeaders = headersA
  ∧ headersA ≠ headersB
  ∧ buildAServer ≠ buildBServer
  ∧ tornRun.1 ≠ publishedBy sampleState threadA
  ∧ tornRun.1 ≠ publishedBy sampleState threadB := by
  refine ⟨⟨rfl, rfl⟩, rfl, rfl, by decide, by decide, by decide, by decide⟩

/-- C6: the empty path and "/" do normalize to index.html, and a
traversal path is rejected with the 400-equivalent before any
filesystem access, but a non-empty path ending in "/" is rewritten by
requestPath += "/index.html" to a double-slash path that fs.ValidPath
rejects, so the request for "/foo/" is answered 400 even though
foo/index.html exists in the content root — the spec's "trailing slash →
append index.html" (which would yield foo/index.html) does not hold. -/
theorem trailing_slash_rejected :
    normalizeRequestPath "" = "index.html"
  ∧ normalizeRequestPath "/" = "index.html"
  ∧ normalizeRequestPath "/foo/" = "foo//index.html"
  ∧ normalizeRequestPath "/foo/" ≠ "foo/index.html"
  ∧ validPath "foo//index.html" = false
  ∧ sampleServer.serveHTTP 3 (getReq "/foo/") =
      some (HandleError .invalidPath)
  ∧ (HandleError .invalidPath).status = 400
  ∧ sampleFS.entries.lookup "foo/index.html" = some (.file "fooidx")
  ∧ sampleServer.serveHTTP 3 (getReq "/../index.html") =
      some (HandleError .invalidPath) := by
  refine ⟨rfl, rfl, rfl, by decide, by decide, by decide, rfl, rfl, by decide⟩

/-- C2: for a GET or HEAD request whose (valid) normalized path fails to
open, the content server answers with the 404-equivalent (status 404,
empty body) when the failure is fs.ErrNotExist, and with the
500-equivalent for every other I/O failure — in both cases a well-defined
error response, not a crash. -/
theorem serveHTTP_open_error (h : NixStorePathServer) (fuel : Nat)
    (r : Request) (e : FSErr)
    (hm : r.method = "GET" ∨ r.method = "HEAD")
    (hv : validPath (normalizeRequestPath r.urlPath) = true)
    (ho : openFile h.resolvedRoot fuel (normalizeRequestPath r.urlPath) true
            = some (.error e)) :
    h.serveHTTP fuel r =
      some (match e with
            | .notExist =>
              { status := 404, headers := [("Content-Length", "0")]
                body := "" }
            | .ioErr =>
              { status := 500, headers := [("Content-Length", "0")]
                body := "" }) := by
  have hm' : ¬ (r.method ≠ "GET" ∧ r.method ≠ "HEAD") := by
    rcases hm with h1 | h1 <;> simp [h1]
  cases e with
  | notExist =>
    simp only [NixStorePathServer.serveHTTP]
    rw [if_neg hm', if_neg (by simp [hv]), ho]
    rfl
  | ioErr =>
    simp only [NixStorePathServer.serveHTTP]
    rw [if_neg hm', if_neg (by simp [hv]), ho]
    rfl

/-- Witness for C2: a request for a path missing from the sample content
root is answered 404 with an empty body. -/
theorem serveHTTP_open_error_witness :
    sampleServer.serveHTTP 1 (getReq "/missing.html") =
      some { status := 404, headers := [("Content-Length", "0")]
             body := "" } :=
  serveHTTP_open_error sampleServer 1 (getReq "/missing.html") .notExist
    (Or.inl rfl) (by decide) rfl

/-- A character list with no colon has no split point. -/
theorem splitFirstColon_no_colon (l : List Char) (h : ':' ∉ l) :
    splitFirstColon l = none := by
  induction l with
  | nil => rfl
  | cons c cs ih =>
    rw [List.mem_cons, not_or] at h
    simp only [splitFirstColon]
    rw [if_neg (fun hc => h.1 hc.symm), ih h.2]

/-- Splitting at the first colon of pre ++ [colon] ++ post recovers the
two halves when pre itself is colon-free. -/
theorem splitFirstColon_append (pre post : List Char) (hp : ':' ∉ pre) :
    splitFirstColon (pre ++ ':' :: post) = some (pre, post) := by
  induction pre with
  | nil => simp [splitFirstColon]
  | cons c cs ih =>
    rw [List.mem_cons, not_or] at hp
    simp only [List.cons_append, splitFirstColon, List.append_eq]
    rw [if_neg (fun hc => hp.1 hc.symm), ih hp.2]

/-- A specification "systemd:" ++ name parses into network "systemd" and
address name (the first colon is the separator even when the name has
colons of its own). -/
theorem systemd_split (name : String) :
    SplitNetworkAddress ("systemd:" ++ name) = .ok ("systemd", name) := by
  have hdata : ("systemd:" ++ name).data
      = ['s', 'y', 's', 't', 'e', 'm', 'd'] ++ ':' :: name.data := rfl
  unfold SplitNetworkAddress
  rw [hdata, splitFirstColon_append _ _ (by decide)]

/-- C7: a systemd:<name> specification whose non-empty name is not among
the descriptor files passed by the supervisor resolves to the
"systemd socket not found" lookup error (no socket is bound); when no
descriptors were passed at all any systemd:<name> specification yields
the distinct ErrNoSystemdSockets error; and a specification without the
network/address separator ":" yields the "socket address" parse
error. -/
theorem listener_resolver_errors (files : List String) (name s : String)
    (hne : name ≠ "") (hmem : name ∉ files) (hfne : files ≠ [])
    (hnos : ':' ∉ s.data) :
    ListenerFromString files ("systemd:" ++ name) =
      .error (.addrFailure "systemd socket not found" name)
  ∧ ListenerFromString [] ("systemd:" ++ name) = .error .noSystemdSockets
  ∧ ListenerFromString files s = .error (.parseFailure "socket address" s) := by
  refine ⟨?_, ?_, ?_⟩
  · unfold ListenerFromString
    rw [systemd_split]
    dsimp only
    rw [if_pos (Or.inr rfl)]
    unfold FDFile
    rw [if_neg (by decide), if_pos rfl]
    cases files with
    | nil => exact absurd rfl hfne
    | cons f rest =>
      dsimp only
      rw [if_neg hne]
      rw [if_neg (by simp_all [List.contains, List.elem_iff])]
  · unfold ListenerFromString
    rw [systemd_split]
    dsimp only
    rw [if_pos (Or.inr rfl)]
    rfl
  · unfold ListenerFromString
    unfold SplitNetworkAddress
    rw [splitFirstColon_no_colon _ hnos]

/-- Witness for C7: with only a descriptor named "web" passed,
systemd:api is a lookup error; with none passed it is
ErrNoSystemdSockets; and "nocolon" is a parse error. -/
theorem listener_resolver_errors_witness :
    ListenerFromString ["web"] ("systemd:" ++ "api") =
      .error (.addrFailure "systemd socket not found" "api")
  ∧ ListenerFromString [] ("systemd:" ++ "api") = .error .noSystemdSockets
  ∧ ListenerFromString ["web"] "nocolon" =
      .error (.parseFailure "socket address" "nocolon") :=
  listener_resolver_errors ["web"] "api" "nocolon"
    (by decide) (by decide) (by decide) (by decide)

/-- Every successfully served response (status 200) carries the server's
tree-wide ETag in its Etag header. -/
theorem serveHTTP_ok_etag (h : NixStorePathServer) (fuel : Nat) (r : Request)
    (p : Response) (hp : h.serveHTTP fuel r = some p) (hs : p.status = 200) :
    getHeader p "Etag" = some h.etag := by
  unfold NixStorePathServer.serveHTTP at hp
  split at hp
  · injection hp with h1; rw [← h1] at hs; exact absurd hs (by decide)
  · dsimp only at hp
    split at hp
    · injection hp with h1; rw [← h1] at hs; exact absurd hs (by decide)
    · split at hp
      · exact Option.noConfusion hp
      · injection hp with h1; rw [← h1] at hs; exact absurd hs (by decide)
      · injection hp with h1; rw [← h1] at hs; exact absurd hs (by decide)
      · split at hp
        · split at hp
          · exact Option.noConfusion hp
          · injection hp with h1; rw [← h1]; rfl
          · injection hp with h1; rw [← h1]; rfl
        · injection hp with h1; rw [← h1]; rfl

/-- C8: a content server constructed over a store path whose digest is
narHash has ETag quote-narHash-quote fixed at construction, and any two
successfully served responses from that same instance (no rebuild in
between) both carry exactly that ETag, hence identical ETags, whatever
paths they request. -/
theorem etag_fixed_at_construction (env : BuildEnv)
    (storePath narHash : String) (h : NixStorePathServer) (fuel : Nat)
    (r1 r2 : Request) (p1 p2 : Response)
    (hn : env.narHash storePath = .ok narHash)
    (hC : NewNixStorePathServer env storePath = .ok h)
    (h1 : h.serveHTTP fuel r1 = some p1) (hs1 : p1.status = 200)
    (h2 : h.serveHTTP fuel r2 = some p2) (hs2 : p2.status = 200) :
    getHeader p1 "Etag" = some ("\"" ++ narHash ++ "\"")
  ∧ getHeader p2 "Etag" = some ("\"" ++ narHash ++ "\"")
  ∧ getHeader p1 "Etag" = getHeader p2 "Etag" := by
  have het : h.etag = "\"" ++ narHash ++ "\"" := by
    unfold NewNixStorePathServer at hC
    rw [hn] at hC
    injection hC with h3
    rw [← h3]
  have e1 := serveHTTP_ok_etag h fuel r1 p1 h1 hs1
  have e2 := serveHTTP_ok_etag h fuel r2 p2 h2 hs2
  rw [het] at e1 e2
  exact ⟨e1, e2, e1.trans e2.symm⟩

/-- Witness for C8: the sample server built from digest h123 serves "/"
(body hello) and "/foo" (body fooidx, via the directory redirect) with
the same Etag, the quoted digest. -/
theorem etag_fixed_at_construction_witness :
    getHeader
      { status := 200
        headers := [("Vary", "Accept-Encoding"),
                    ("Cache-Control", "public, max-age=0, proxy-revalidate"),
                    ("Etag", "\"h123\"")]
        body := "hello" } "Etag" = some ("\"" ++ "h123" ++ "\"")
  ∧ getHeader
      { status := 200
        headers := [("Vary", "Accept-Encoding"),
                    ("Cache-Control", "public, max-age=0, proxy-revalidate"),
                    ("Etag", "\"h123\"")]
        body := "fooidx" } "Etag" = some ("\"" ++ "h123" ++ "\"")
  ∧ getHeader
      { status := 200
        headers := [("Vary", "Accept-Encoding"),
                    ("Cache-Control", "public, max-age=0, proxy-revalidate"),
                    ("Etag", "\"h123\"")]
        body := "hello" } "Etag" =
    getHeader
      { status := 200
        headers := [("Vary", "Accept-Encoding"),
                    ("Cache-Control", "public, max-age=0, proxy-revalidate"),
                    ("Etag", "\"h123\"")]
        body := "fooidx" } "Etag" :=
  etag_fixed_at_construction sampleEnv "/nix/store/aaa-site" "h123"
    sampleServer 2 (getReq "/") (getReq "/foo") _ _ rfl rfl rfl rfl rfl rfl

end Snowweb



